import Mathlib

/-!
Verification of the PING frame codec (`src/frame/ping.rs`).

Bytes are modelled as `Nat` (values below 256 on the wire; no arithmetic in
the codec depends on the width). The fixed-size `[u8; 8]` payload is modelled
as a `List Nat`; theorems that speak about messages carry the length-8
invariant as a hypothesis, mirroring the Rust type-level guarantee.
-/

namespace H2Ping

/-- Frame kinds of the surrounding protocol (the dispatcher's `Kind` enum);
only `ping` is referenced by this codec, and only in a debug assertion. -/
inductive Kind where
  | data
  | headers
  | priority
  | reset
  | settings
  | pushPromise
  | ping
  | goaway
  | windowUpdate
  | continuation
deriving DecidableEq, Repr

/-- The two protocol-error variants raised by `Ping::load`. -/
inductive Error where
  | InvalidStreamId
  | BadFrameSize
deriving DecidableEq, Repr

/-- The generic frame header handed to `Ping::load` by the dispatcher:
frame kind, one flag byte, and a stream identifier. -/
structure Head where
  kind : Kind
  flag : Nat
  stream_id : Nat
deriving DecidableEq, Repr

/-- `const ACK_FLAG: u8 = 0x1;` -/
def ACK_FLAG : Nat := 0x1

/-- `const SHUTDOWN_PAYLOAD: Payload = [0x0b, 0x7b, 0xa2, 0xf0, 0x8b, 0x9b, 0xfe, 0x54];` -/
def SHUTDOWN_PAYLOAD : List Nat := [0x0b, 0x7b, 0xa2, 0xf0, 0x8b, 0x9b, 0xfe, 0x54]

/-- The `user_payload!` macro: `[0x3b, 0x7c, 0xdb, 0x7a, 0x0b, 0x87, 0x16, $id]`. -/
def user_payload (id : Nat) : List Nat := [0x3b, 0x7c, 0xdb, 0x7a, 0x0b, 0x87, 0x16, id]

/-- `const USER_PAYLOADS: [Payload; 2] = [user_payload![0], user_payload![1]];` -/
def USER_PAYLOADS : List (List Nat) := [user_payload 0, user_payload 1]

/-- The typed PING message: `struct Ping { ack: bool, payload: Payload }`. -/
structure Ping where
  ack : Bool
  payload : List Nat
deriving DecidableEq, Repr

/-- `Ping::new`: a fresh probe, `ack = false`. -/
def Ping.new (payload : List Nat) : Ping := { ack := false, payload := payload }

/-- `Ping::pong`: a response, `ack = true`. -/
def Ping.pong (payload : List Nat) : Ping := { ack := true, payload := payload }

/-- `Ping::is_ack`. -/
def Ping.is_ack (p : Ping) : Bool := p.ack

/-- `Ping::into_payload` (and the borrowing accessor `payload`). -/
def Ping.into_payload (p : Ping) : List Nat := p.payload

/-- `Ping::user_payload_id`: `Some(payload[7])` when `payload[0..7]`
equals `USER_PAYLOADS[0][0..7]`, else `None`. -/
def Ping.user_payload_id (p : Ping) : Option Nat :=
  if p.payload.take 7 = (USER_PAYLOADS.getD 0 []).take 7 then
    some (p.payload.getD 7 0)
  else
    none

/-- `Ping::load`: reject a non-zero stream id, then a payload whose length is
not 8, then read the ACK flag as bit 0 of the flag byte and copy the bytes. -/
def Ping.load (head : Head) (bytes : List Nat) : Except Error Ping :=
  if head.stream_id ≠ 0 then
    .error .InvalidStreamId
  else if bytes.length ≠ 8 then
    .error .BadFrameSize
  else
    .ok { ack := Nat.land head.flag ACK_FLAG ≠ 0, payload := bytes }

/-- The outbound buffer: `Head::encode` appends the serialized generic header
(its field values plus the declared payload length), `put_slice` appends raw
bytes. Each appended unit is one item. -/
inductive WireItem where
  | header (h : Head) (len : Nat)
  | byte (b : Nat)
deriving DecidableEq, Repr

/-- `Head::new(kind, flag, stream_id)`. -/
def Head.new (kind : Kind) (flag : Nat) (stream_id : Nat) : Head :=
  { kind := kind, flag := flag, stream_id := stream_id }

/-- Modelled from the spec: `Head::encode` (the generic frame-header
serializer, outside this core) emits the header — kind, flag byte, stream
identifier, and the declared payload length — onto the output buffer; it is
represented as one `WireItem.header` unit carrying exactly those fields. -/
def Head.encodeW (h : Head) (len : Nat) (dst : List WireItem) : List WireItem :=
  dst ++ [WireItem.header h len]

/-- `BufMut::put_slice`: append raw bytes to the output buffer. -/
def put_slice (bytes : List Nat) (dst : List WireItem) : List WireItem :=
  dst ++ bytes.map WireItem.byte

/-- `Ping::encode`: header for kind PING with flag `ACK_FLAG` or 0 and stream
id zero, declared length `payload.len()`, then the payload bytes verbatim. -/
def Ping.encode (p : Ping) (dst : List WireItem) : List WireItem :=
  let sz := p.payload.length
  let flags := if p.ack then ACK_FLAG else 0
  let head := Head.new Kind.ping flags 0
  put_slice p.payload (Head.encodeW head sz dst)

/-- Extract a raw byte from a wire item, failing on a header item. -/
def byteOf : WireItem → Option Nat
  | WireItem.byte b => some b
  | WireItem.header _ _ => none

/-- Modelled from the spec: the external dispatcher splits an encoded frame
back into its generic header and the raw payload bytes before calling
`decode`. -/
def splitFrame : List WireItem → Option (Head × List Nat)
  | WireItem.header h _ :: rest =>
      (rest.mapM byteOf).map fun bytes => (h, bytes)
  | _ => none

theorem mapM_loop_byteOf (p : List Nat) (acc : List Nat) :
    List.mapM.loop byteOf (p.map WireItem.byte) acc =
      some (acc.reverse ++ p) := by
  induction p generalizing acc with
  | nil => simp [List.mapM.loop]
  | cons x xs ih => simp [List.mapM.loop, byteOf, ih]

theorem mapM_byteOf_map (p : List Nat) :
    (p.map WireItem.byte).mapM byteOf = some p := by
  simp [List.mapM, mapM_loop_byteOf]

/-- C1: decoding a header with a non-zero stream identifier fails with
`Error::InvalidStreamId`, regardless of the payload's contents or length:
the stream-id check precedes the length check. -/
theorem load_nonzero_stream_id (head : Head) (bytes : List Nat)
    (h : head.stream_id ≠ 0) :
    Ping.load head bytes = Except.error Error.InvalidStreamId := by
  simp [Ping.load, h]

/-- Witness for C1: a header with stream id 5 and a wrong-sized payload
still reports the stream-id violation. -/
theorem load_nonzero_stream_id_witness :
    Ping.load (Head.new Kind.ping 0 5) [1, 2, 3] =
      Except.error Error.InvalidStreamId :=
  load_nonzero_stream_id (Head.new Kind.ping 0 5) [1, 2, 3] (by decide)

/-- C2: with stream id zero, a payload whose length is not exactly 8 is
rejected with `Error::BadFrameSize`. -/
theorem load_bad_frame_size (head : Head) (bytes : List Nat)
    (h0 : head.stream_id = 0) (h8 : bytes.length ≠ 8) :
    Ping.load head bytes = Except.error Error.BadFrameSize := by
  simp [Ping.load, h0, h8]

/-- Witness for C2: a 7-byte payload with a zero stream id reports the
frame-size violation. -/
theorem load_bad_frame_size_witness :
    Ping.load (Head.new Kind.ping 0 0) [1, 2, 3, 4, 5, 6, 7] =
      Except.error Error.BadFrameSize :=
  load_bad_frame_size (Head.new Kind.ping 0 0) [1, 2, 3, 4, 5, 6, 7]
    (by decide) (by decide)

/-- C3: round-trip — encoding a probe (`Ping::new`) or a response
(`Ping::pong`) and splitting the output back into header and payload
decodes to the original message. -/
theorem ping_roundtrip (a : Bool) (p : List Nat) (hp : p.length = 8) :
    (splitFrame ((if a then Ping.pong p else Ping.new p).encode [])).map
        (fun hb => Ping.load hb.1 hb.2) =
      some (Except.ok (if a then Ping.pong p else Ping.new p)) := by
  cases a <;>
    simp [Ping.encode, Ping.new, Ping.pong, put_slice, Head.encodeW, Head.new,
      splitFrame, mapM_loop_byteOf, Ping.load, hp, ACK_FLAG] <;>
    norm_num [Nat.land]

/-- Witness for C3: round-trip of a concrete 8-byte response payload. -/
theorem ping_roundtrip_witness :
    ([1, 2, 3, 4, 5, 6, 7, 8] : List Nat).length = 8 ∧
      (splitFrame ((if true then Ping.pong [1, 2, 3, 4, 5, 6, 7, 8]
            else Ping.new [1, 2, 3, 4, 5, 6, 7, 8]).encode [])).map
          (fun hb => Ping.load hb.1 hb.2) =
        some (Except.ok (if true then Ping.pong [1, 2, 3, 4, 5, 6, 7, 8]
            else Ping.new [1, 2, 3, 4, 5, 6, 7, 8])) :=
  ⟨by decide, ping_roundtrip true [1, 2, 3, 4, 5, 6, 7, 8] (by decide)⟩

/-- C4: on a valid frame the decoded ACK flag is exactly bit 0 of the flag
byte, and any flag byte agreeing on bit 0 (bits 1–7 set or cleared freely)
decodes to the very same message. -/
theorem load_flag_isolation (head : Head) (bytes : List Nat)
    (h0 : head.stream_id = 0) (h8 : bytes.length = 8) :
    Ping.load head bytes =
      Except.ok { ack := decide (Nat.land head.flag ACK_FLAG ≠ 0),
                  payload := bytes } ∧
    ∀ flag2 : Nat, Nat.land flag2 ACK_FLAG = Nat.land head.flag ACK_FLAG →
      Ping.load { head with flag := flag2 } bytes = Ping.load head bytes := by
  constructor
  · simp [Ping.load, h0, h8]
  · intro flag2 hf
    simp [Ping.load, h0, h8, hf]

/-- Witness for C4: flag byte 0xFF (bits 1–7 set) decodes the same as 0x01. -/
theorem load_flag_isolation_witness :
    (Head.new Kind.ping 0xff 0).stream_id = 0 ∧
      ([0, 0, 0, 0, 0, 0, 0, 0] : List Nat).length = 8 ∧
      Ping.load (Head.new Kind.ping 0x01 0) [0, 0, 0, 0, 0, 0, 0, 0] =
        Ping.load (Head.new Kind.ping 0xff 0) [0, 0, 0, 0, 0, 0, 0, 0] :=
  ⟨by decide, by decide,
    (load_flag_isolation (Head.new Kind.ping 0xff 0) [0, 0, 0, 0, 0, 0, 0, 0]
      (by decide) (by decide)).2 0x01 (by decide)⟩

/-- C5: `user_payload_id` returns `some` of the last payload byte exactly
when the first 7 payload bytes equal the reserved user-payload 7-byte head,
and `none` otherwise; in particular `some 0` and `some 1` on the two user
payloads and `none` on the shutdown payload. -/
theorem user_payload_id_spec (m : Ping) (_h8 : m.payload.length = 8) :
    (m.payload.take 7 = (USER_PAYLOADS.getD 0 []).take 7 →
        m.user_payload_id = some (m.payload.getD 7 0)) ∧
    (m.payload.take 7 ≠ (USER_PAYLOADS.getD 0 []).take 7 →
        m.user_payload_id = none) ∧
    (Ping.new (USER_PAYLOADS.getD 0 [])).user_payload_id = some 0 ∧
    (Ping.new (USER_PAYLOADS.getD 1 [])).user_payload_id = some 1 ∧
    (Ping.new SHUTDOWN_PAYLOAD).user_payload_id = none := by
  refine ⟨fun h => ?_, fun h => ?_, by decide, by decide, by decide⟩
  · simp [Ping.user_payload_id, h]
  · unfold Ping.user_payload_id
    rw [if_neg h]

/-- Witness for C5: the classification facts at the shutdown payload. -/
theorem user_payload_id_spec_witness :
    (Ping.new SHUTDOWN_PAYLOAD).payload.length = 8 ∧
      (Ping.new SHUTDOWN_PAYLOAD).user_payload_id = none :=
  ⟨by decide,
    (user_payload_id_spec (Ping.new SHUTDOWN_PAYLOAD) (by decide)).2.2.2.2⟩

/-- C6: `encode` appends exactly the generic PING header — flag byte
`ACK_FLAG` when `ack` else 0, stream id zero, declared length 8 — followed by
the payload bytes verbatim and nothing else; in particular a probe and a
response with the same payload differ only in the header's flag byte. -/
theorem encode_spec (m : Ping) (dst : List WireItem) (h8 : m.payload.length = 8) :
    m.encode dst =
      dst ++ WireItem.header (Head.new Kind.ping (if m.ack then ACK_FLAG else 0) 0) 8 ::
        m.payload.map WireItem.byte ∧
    ∀ p : List Nat, p.length = 8 →
      Ping.encode (Ping.new p) dst =
        dst ++ WireItem.header (Head.new Kind.ping 0 0) 8 :: p.map WireItem.byte ∧
      Ping.encode (Ping.pong p) dst =
        dst ++ WireItem.header (Head.new Kind.ping ACK_FLAG 0) 8 :: p.map WireItem.byte := by
  refine ⟨?_, fun p hp => ⟨?_, ?_⟩⟩
  · simp [Ping.encode, put_slice, Head.encodeW, h8]
  · simp [Ping.encode, Ping.new, put_slice, Head.encodeW, hp]
  · simp [Ping.encode, Ping.pong, put_slice, Head.encodeW, hp]

/-- Witness for C6: the exact wire items produced for a concrete probe. -/
theorem encode_spec_witness :
    (Ping.new [1, 2, 3, 4, 5, 6, 7, 8]).payload.length = 8 ∧
      (Ping.new [1, 2, 3, 4, 5, 6, 7, 8]).encode [] =
        [] ++ WireItem.header
            (Head.new Kind.ping (if (Ping.new [1, 2, 3, 4, 5, 6, 7, 8]).ack
              then ACK_FLAG else 0) 0) 8 ::
          (Ping.new [1, 2, 3, 4, 5, 6, 7, 8]).payload.map WireItem.byte :=
  ⟨by decide, (encode_spec (Ping.new [1, 2, 3, 4, 5, 6, 7, 8]) [] (by decide)).1⟩

/-- C7: the well-known payload constants have the exact wire-contract byte
values: the shutdown payload, and the two user payloads with their shared
7-byte head and last bytes 0 and 1. -/
theorem wire_constants :
    SHUTDOWN_PAYLOAD = [0x0b, 0x7b, 0xa2, 0xf0, 0x8b, 0x9b, 0xfe, 0x54] ∧
    USER_PAYLOADS.length = 2 ∧
    (USER_PAYLOADS.getD 0 []).take 7 = [0x3b, 0x7c, 0xdb, 0x7a, 0x0b, 0x87, 0x16] ∧
    (USER_PAYLOADS.getD 1 []).take 7 = [0x3b, 0x7c, 0xdb, 0x7a, 0x0b, 0x87, 0x16] ∧
    (USER_PAYLOADS.getD 0 []).getD 7 0 = 0x00 ∧
    (USER_PAYLOADS.getD 1 []).getD 7 0 = 0x01 := by
  decide

/-- C8: decoding a PING header with flag byte 0x01 and stream id 0 together
with payload `3b 7c db 7a 0b 87 16 01` succeeds, the message is an ACK, and
it classifies as user payload id 1. -/
theorem concrete_user_ack_decode :
    Ping.load (Head.new Kind.ping 0x01 0)
        [0x3b, 0x7c, 0xdb, 0x7a, 0x0b, 0x87, 0x16, 0x01] =
      Except.ok (Ping.pong [0x3b, 0x7c, 0xdb, 0x7a, 0x0b, 0x87, 0x16, 0x01]) ∧
    (Ping.pong [0x3b, 0x7c, 0xdb, 0x7a, 0x0b, 0x87, 0x16, 0x01]).is_ack = true ∧
    (Ping.pong [0x3b, 0x7c, 0xdb, 0x7a, 0x0b, 0x87, 0x16, 0x01]).user_payload_id =
      some 1 := by
  refine ⟨?_, by decide, by decide⟩
  simp [Ping.load, Head.new, Ping.pong, ACK_FLAG]

/-- C9: `user_payload_id` accepts every last byte, not only 0 and 1: any
payload made of the reserved 7-byte head plus an arbitrary last byte `b`
classifies as `some b`; e.g. last byte 0xff classifies as `some 0xff`. -/
theorem user_payload_id_all_last_bytes (a : Bool) (b : Nat) :
    (Ping.mk a (user_payload b)).user_payload_id = some b ∧
    (Ping.new (user_payload 0xff)).user_payload_id = some 0xff := by
  refine ⟨?_, by decide⟩
  simp [Ping.user_payload_id, user_payload, USER_PAYLOADS]

/-- C10: `load` never inspects the header's frame kind (it is only
debug-asserted): with stream id zero and an 8-byte payload it succeeds for
every kind, yielding the same message with the payload copied verbatim. -/
theorem load_ignores_kind (kind : Kind) (flag : Nat) (bytes : List Nat)
    (h8 : bytes.length = 8) :
    Ping.load (Head.new kind flag 0) bytes =
      Except.ok { ack := decide (Nat.land flag ACK_FLAG ≠ 0), payload := bytes } ∧
    ∀ kind2 : Kind,
      Ping.load (Head.new kind2 flag 0) bytes =
        Ping.load (Head.new kind flag 0) bytes := by
  refine ⟨?_, fun kind2 => ?_⟩ <;> simp [Ping.load, Head.new, h8]

/-- Witness for C10: a frame whose header claims kind SETTINGS still decodes
as a PING message with the bytes preserved. -/
theorem load_ignores_kind_witness :
    ([9, 9, 9, 9, 9, 9, 9, 9] : List Nat).length = 8 ∧
      Ping.load (Head.new Kind.settings 0x01 0) [9, 9, 9, 9, 9, 9, 9, 9] =
        Except.ok { ack := decide (Nat.land 0x01 ACK_FLAG ≠ 0),
                    payload := [9, 9, 9, 9, 9, 9, 9, 9] } :=
  ⟨by decide,
    (load_ignores_kind Kind.settings 0x01 [9, 9, 9, 9, 9, 9, 9, 9] (by decide)).1⟩

end H2Ping
